import Mathlib

/-!
Verification of the CrypTalker end-to-end messaging engine.

Strings from the TypeScript source are modelled as lists of natural
numbers (byte values, or UTF-16 code units where the source measures
string length).  `Buffer.from(s).toString("base64")` is modelled by an
explicit base64 encoder over byte lists, and the matching decoder models
`Buffer.from(s, "base64").toString()`.  JavaScript numbers used as
counters and timestamps are modelled as integers; the delivery-queue
times and jitter, which mix `Date.now()` with `Math.random()*1000`, are
modelled as rationals.
-/

/-- Maps a sextet (0..63) to the code of its base64 alphabet character. -/
def sextetChar (s : Nat) : Nat :=
  if s < 26 then 65 + s
  else if s < 52 then 97 + (s - 26)
  else if s < 62 then 48 + (s - 52)
  else if s = 62 then 43
  else 47

/-- Maps a base64 alphabet character code back to its sextet. -/
def charSextet (c : Nat) : Nat :=
  if 65 ≤ c ∧ c ≤ 90 then c - 65
  else if 97 ≤ c ∧ c ≤ 122 then c - 97 + 26
  else if 48 ≤ c ∧ c ≤ 57 then c - 48 + 52
  else if c = 43 then 62
  else if c = 47 then 63
  else 0

/-- Base64 encoding of a byte list, with `=` (code 61) padding, as
performed by `Buffer.prototype.toString("base64")`. -/
def base64Encode : List Nat → List Nat
  | [] => []
  | [b0] =>
      [sextetChar (b0 / 4), sextetChar (b0 % 4 * 16), 61, 61]
  | [b0, b1] =>
      [sextetChar (b0 / 4), sextetChar (b0 % 4 * 16 + b1 / 16),
       sextetChar (b1 % 16 * 4), 61]
  | b0 :: b1 :: b2 :: rest =>
      sextetChar (b0 / 4) :: sextetChar (b0 % 4 * 16 + b1 / 16) ::
      sextetChar (b1 % 16 * 4 + b2 / 64) :: sextetChar (b2 % 64) ::
      base64Encode rest

/-- Base64 decoding back to a byte list, as performed by
`Buffer.from(s, "base64")`. -/
def base64Decode : List Nat → List Nat
  | c0 :: c1 :: c2 :: c3 :: rest =>
      if c2 = 61 then
        [charSextet c0 * 4 + charSextet c1 / 16]
      else if c3 = 61 then
        [charSextet c0 * 4 + charSextet c1 / 16,
         charSextet c1 % 16 * 16 + charSextet c2 / 4]
      else
        (charSextet c0 * 4 + charSextet c1 / 16) ::
        (charSextet c1 % 16 * 16 + charSextet c2 / 4) ::
        (charSextet c2 % 4 * 64 + charSextet c3) ::
        base64Decode rest
  | _ => []

theorem charSextet_sextetChar (s : Nat) (h : s < 64) :
    charSextet (sextetChar s) = s := by
  simp only [sextetChar, charSextet]
  split_ifs <;> omega

theorem sextetChar_ne_61 (s : Nat) (h : s < 64) : sextetChar s ≠ 61 := by
  simp only [sextetChar]
  split_ifs <;> omega

theorem base64Decode_pad2 (c0 c1 : Nat) :
    base64Decode [c0, c1, 61, 61] = [charSextet c0 * 4 + charSextet c1 / 16] := by
  simp [base64Decode]

theorem base64Decode_pad1 (c0 c1 c2 : Nat) (h2 : c2 ≠ 61) :
    base64Decode [c0, c1, c2, 61] =
      [charSextet c0 * 4 + charSextet c1 / 16,
       charSextet c1 % 16 * 16 + charSextet c2 / 4] := by
  simp [base64Decode, h2]

theorem base64Decode_full (c0 c1 c2 c3 : Nat) (rest : List Nat)
    (h2 : c2 ≠ 61) (h3 : c3 ≠ 61) :
    base64Decode (c0 :: c1 :: c2 :: c3 :: rest) =
      (charSextet c0 * 4 + charSextet c1 / 16) ::
      (charSextet c1 % 16 * 16 + charSextet c2 / 4) ::
      (charSextet c2 % 4 * 64 + charSextet c3) ::
      base64Decode rest := by
  simp [base64Decode, h2, h3]

theorem base64_roundtrip :
    ∀ (l : List Nat), (∀ b ∈ l, b < 256) → base64Decode (base64Encode l) = l
  | [], _ => rfl
  | [b0], h => by
      have hb0 : b0 < 256 := h b0 (by simp)
      rw [show base64Encode [b0] =
            [sextetChar (b0 / 4), sextetChar (b0 % 4 * 16), 61, 61] from rfl]
      rw [base64Decode_pad2,
        charSextet_sextetChar _ (by omega), charSextet_sextetChar _ (by omega)]
      simp only [List.cons.injEq, and_true]
      omega
  | [b0, b1], h => by
      have hb0 : b0 < 256 := h b0 (by simp)
      have hb1 : b1 < 256 := h b1 (by simp)
      rw [show base64Encode [b0, b1] =
            [sextetChar (b0 / 4), sextetChar (b0 % 4 * 16 + b1 / 16),
             sextetChar (b1 % 16 * 4), 61] from rfl]
      rw [base64Decode_pad1 _ _ _ (sextetChar_ne_61 _ (by omega)),
        charSextet_sextetChar _ (by omega), charSextet_sextetChar _ (by omega),
        charSextet_sextetChar _ (by omega)]
      simp only [List.cons.injEq, and_true]
      omega
  | b0 :: b1 :: b2 :: rest, h => by
      have hb0 : b0 < 256 := h b0 (by simp)
      have hb1 : b1 < 256 := h b1 (by simp)
      have hb2 : b2 < 256 := h b2 (by simp)
      have ih := base64_roundtrip rest (fun b hb => h b (by simp [hb]))
      rw [show base64Encode (b0 :: b1 :: b2 :: rest) =
            sextetChar (b0 / 4) :: sextetChar (b0 % 4 * 16 + b1 / 16) ::
            sextetChar (b1 % 16 * 4 + b2 / 64) :: sextetChar (b2 % 64) ::
            base64Encode rest from rfl]
      rw [base64Decode_full _ _ _ _ _
            (sextetChar_ne_61 _ (by omega)) (sextetChar_ne_61 _ (by omega)),
        charSextet_sextetChar _ (by omega), charSextet_sextetChar _ (by omega),
        charSextet_sextetChar _ (by omega), charSextet_sextetChar _ (by omega), ih]
      simp only [List.cons.injEq, and_true]
      refine ⟨by omega, by omega, by omega⟩

/-! ## Crypto utilities (lib/crypto.ts, `cryptoUtils`) -/

/-- Session key record produced by `deriveSharedSecret` (lib/crypto.ts). -/
structure SessionKey where
  sharedSecret : List Nat
  headerSecret : List Nat
  chainKey : List Nat
  messageCounter : Int
deriving DecidableEq, Repr

/-- Wire envelope produced by `cryptoUtils.encryptMessage` (lib/crypto.ts). -/
structure EncryptedMessage where
  ciphertext : List Nat
  nonce : List Nat
  senderDeviceId : List Nat
  recipientDeviceId : List Nat
  timestamp : Int
  messageCounter : Int
  headerSecret : List Nat
deriving DecidableEq, Repr

namespace cryptoUtils

/-- `cryptoUtils.deriveSharedSecret` (lib/crypto.ts): the shared secret is
the base64 encoding of the concatenation of the three string arguments;
`headerSecret` and `chainKey` come from `Math.random()` and are therefore
taken as parameters. -/
def deriveSharedSecret (theirSignedPreKey theirOneTimeKey ourAgreementSecretKey : List Nat)
    (headerSecret chainKey : List Nat) : SessionKey :=
  { sharedSecret := base64Encode (theirSignedPreKey ++ theirOneTimeKey ++ ourAgreementSecretKey)
    headerSecret := headerSecret
    chainKey := chainKey
    messageCounter := 0 }

/-- `cryptoUtils.encryptMessage` (lib/crypto.ts): the ciphertext is the
base64 encoding of the plaintext bytes; the nonce comes from
`Math.random()` and the timestamp from `Date.now()`, both taken as
parameters.  The sender and recipient user ids are accepted and unused,
exactly as in the source. -/
def encryptMessage (plaintext : List Nat) (sessionKey : SessionKey)
    (senderId recipientId senderDeviceId recipientDeviceId : List Nat)
    (nonce : List Nat) (timestamp : Int) : EncryptedMessage :=
  { ciphertext := base64Encode plaintext
    nonce := nonce
    senderDeviceId := senderDeviceId
    recipientDeviceId := recipientDeviceId
    timestamp := timestamp
    messageCounter := sessionKey.messageCounter + 1
    headerSecret := sessionKey.headerSecret }

/-- `cryptoUtils.decryptMessage` (lib/crypto.ts): base64-decodes the
ciphertext field; the session key argument is accepted and unused, and
there is no authentication check or failure branch in the source. -/
def decryptMessage (message : EncryptedMessage) (sessionKey : SessionKey) : List Nat :=
  base64Decode message.ciphertext

/-- `cryptoUtils.evolveChainKey` (lib/crypto.ts): appends
`:evolved:<Date.now()>` to the chain key and base64-encodes; the
timestamp suffix is taken as a parameter. -/
def evolveChainKey (chainKey : List Nat) (timestampBytes : List Nat) : List Nat :=
  base64Encode (chainKey ++ [58, 101, 118, 111, 108, 118, 101, 100, 58] ++ timestampBytes)

/-- `cryptoUtils.verifySignature` (lib/crypto.ts): returns `true`
unconditionally. -/
def verifySignature (message signature publicKey : List Nat) : Bool :=
  true

/-- `cryptoUtils.signData` (lib/crypto.ts): base64 of
`<data>:signed:<secretKey>`. -/
def signData (data secretKey : List Nat) : List Nat :=
  base64Encode (data ++ [58, 115, 105, 103, 110, 101, 100, 58] ++ secretKey)

end cryptoUtils

/-- Claim C5: for every plaintext byte string P, every session key K and
every choice of sender/recipient user and device ids (and any nonce and
timestamp), decrypting the envelope produced by encryption with the same
session key returns exactly P. -/
theorem C5_encrypt_decrypt_roundtrip
    (P : List Nat) (K : SessionKey)
    (senderId recipientId senderDeviceId recipientDeviceId nonce : List Nat)
    (timestamp : Int) (hP : ∀ b ∈ P, b < 256) :
    cryptoUtils.decryptMessage
      (cryptoUtils.encryptMessage P K senderId recipientId senderDeviceId
        recipientDeviceId nonce timestamp) K = P := by
  unfold cryptoUtils.decryptMessage cryptoUtils.encryptMessage
  exact base64_roundtrip P hP

/-- Witness for C5 at the concrete plaintext "hello" ([104,101,108,108,111]). -/
theorem C5_encrypt_decrypt_roundtrip_witness :
    cryptoUtils.decryptMessage
      (cryptoUtils.encryptMessage [104, 101, 108, 108, 111]
        ⟨[1], [2], [3], 0⟩ [4] [5] [6] [7] [8] 9)
      ⟨[1], [2], [3], 0⟩ = [104, 101, 108, 108, 111] :=
  C5_encrypt_decrypt_roundtrip [104, 101, 108, 108, 111]
    ⟨[1], [2], [3], 0⟩ [4] [5] [6] [7] [8] 9 (by decide)

/-- Claim C6: the result of `cryptoUtils.decryptMessage` depends only on
the ciphertext field of the envelope and not on the session key; it is a
total function of the ciphertext alone, so decryption never fails with an
authentication error. -/
theorem C6_decrypt_ignores_key :
    ∀ (m : EncryptedMessage) (K1 K2 : SessionKey),
      cryptoUtils.decryptMessage m K1 = cryptoUtils.decryptMessage m K2 ∧
      cryptoUtils.decryptMessage m K1 = base64Decode m.ciphertext :=
  fun _ _ _ => ⟨rfl, rfl⟩

/-! ## Session management (lib/session.ts, `sessionManager`) -/

/-- Key pair (lib/crypto.ts). -/
structure KeyPair where
  publicKey : List Nat
  secretKey : List Nat
deriving DecidableEq, Repr

/-- Signed pre-key (lib/crypto.ts). -/
structure PreKey where
  keyId : Nat
  publicKey : List Nat
  signature : List Nat
  createdAt : Int
deriving DecidableEq, Repr

/-- One-time pre-key (lib/crypto.ts). -/
structure OneTimeKey where
  keyId : Nat
  publicKey : List Nat
deriving DecidableEq, Repr

/-- Per-device key material (lib/crypto.ts). -/
structure DeviceKeys where
  deviceId : List Nat
  signingKeys : KeyPair
  agreementKeys : KeyPair
  preKeys : List PreKey
  oneTimeKeys : List OneTimeKey
deriving DecidableEq, Repr

/-- Published pre-key bundle (lib/session.ts). -/
structure X3DHBundle where
  identityKey : List Nat
  signedPreKey : List Nat
  signedPreKeySignature : List Nat
  oneTimePreKeys : List (List Nat)
  timestamp : Int
deriving DecidableEq, Repr

/-- Session lifecycle state (lib/session.ts). -/
inductive SState
  | initiated
  | established
  | rekeying
deriving DecidableEq, Repr

/-- Session record stored in the session store (lib/session.ts). -/
structure SessionState where
  sessionId : List Nat
  userId1 : List Nat
  userId2 : List Nat
  deviceId1 : List Nat
  deviceId2 : List Nat
  sessionKey : SessionKey
  state : SState
  sharedSecret : List Nat
  x3dhMessageCounter : Int
  createdAt : Int
  lastUpdated : Int
deriving DecidableEq, Repr

/-- The in-memory session store (`sessionStore` map in lib/session.ts),
modelled as an association list from session id to session state. -/
def SessionStore := List (List Nat × SessionState)

/-- `Map.prototype.set`: overwrite an existing key or append. -/
def setStore : SessionStore → List Nat → SessionState → SessionStore
  | [], k, v => [(k, v)]
  | (k0, v0) :: rest, k, v =>
      if k0 = k then (k, v) :: rest else (k0, v0) :: setStore rest k v

/-- `Map.prototype.get`. -/
def lookupStore : SessionStore → List Nat → Option SessionState
  | [], _ => none
  | (k0, v0) :: rest, k => if k0 = k then some v0 else lookupStore rest k

theorem lookupStore_setStore_self (st : SessionStore) (k : List Nat) (v : SessionState) :
    lookupStore (setStore st k v) k = some v := by
  induction st with
  | nil => simp [setStore, lookupStore]
  | cons hd tl ih =>
      obtain ⟨k0, v0⟩ := hd
      by_cases h : k0 = k
      · simp [setStore, lookupStore, h]
      · simp [setStore, lookupStore, h, ih]

/-- Lexicographic comparison of strings by their code units, the order
used by the default JavaScript `Array.prototype.sort` on strings. -/
def lexLe : List Nat → List Nat → Bool
  | [], _ => true
  | _ :: _, [] => false
  | a :: as, b :: bs => if a < b then true else if b < a then false else lexLe as bs

/-- `[x, y].sort()` on a two-element string array. -/
def sortPair (a b : List Nat) : List Nat × List Nat :=
  if lexLe a b then (a, b) else (b, a)

/-- The byte string `"session"`. -/
def sessionLit : List Nat := [115, 101, 115, 115, 105, 111, 110]

/-- The canonical session id
`session:<sorted user ids joined by :>:<sorted device ids joined by :>`
built in `completeHandshake` and `getOrCreateSession` (lib/session.ts). -/
def sessionIdFor (userId1 userId2 deviceId1 deviceId2 : List Nat) : List Nat :=
  let u := sortPair userId1 userId2
  let d := sortPair deviceId1 deviceId2
  sessionLit ++ [58] ++ u.1 ++ [58] ++ u.2 ++ [58] ++ d.1 ++ [58] ++ d.2

/-- The byte string a JavaScript template literal produces for an
`undefined` interpolation, used when `oneTimePreKeys` is empty. -/
def undefinedLit : List Nat := [117, 110, 100, 101, 102, 105, 110, 101, 100]

namespace sessionManager

/-- `sessionManager.generateX3DHBundle` (lib/session.ts): publishes the
first signed pre-key and the public halves of all one-time keys; nothing
is removed from `deviceKeys`.  The source indexes `preKeys[0]` without a
guard, so the head is taken with a default. -/
def generateX3DHBundle (deviceKeys : DeviceKeys) (now : Int) : X3DHBundle :=
  let preKey := deviceKeys.preKeys.headD ⟨0, [], [], 0⟩
  { identityKey := deviceKeys.signingKeys.publicKey
    signedPreKey := preKey.publicKey
    signedPreKeySignature := preKey.signature
    oneTimePreKeys := deviceKeys.oneTimeKeys.map (fun k => k.publicKey)
    timestamp := now }

/-- `sessionManager.completeHandshake` (lib/session.ts): builds the four
DH input strings from our keys and their bundle, derives the session key,
stores the resulting session unconditionally under the canonical id, and
returns it.  `isInitiator` is accepted and unused exactly as in the
source; no signature is verified and no failure branch exists.  The
random `headerSecret`/`chainKey` and `Date.now()` are parameters. -/
def completeHandshake (userId1 deviceId1 userId2 deviceId2 : List Nat)
    (ourDeviceKeys : DeviceKeys) (theirPreKeyBundle : X3DHBundle) (isInitiator : Bool)
    (headerSecret chainKey : List Nat) (now : Int) (store : SessionStore) :
    SessionState × SessionStore :=
  let dh1 := ourDeviceKeys.signingKeys.publicKey ++ [58] ++ theirPreKeyBundle.identityKey
  let dh2 := ourDeviceKeys.agreementKeys.secretKey ++ [58] ++ theirPreKeyBundle.identityKey
  let dh3 := ourDeviceKeys.signingKeys.publicKey ++ [58] ++ theirPreKeyBundle.signedPreKey
  let dh4 := ourDeviceKeys.agreementKeys.secretKey ++ [58] ++ theirPreKeyBundle.signedPreKey
  let sessionKey := cryptoUtils.deriveSharedSecret
      (dh1 ++ [58] ++ dh2 ++ [58] ++ dh3 ++ [58] ++ dh4)
      (theirPreKeyBundle.oneTimePreKeys.headD undefinedLit)
      ourDeviceKeys.agreementKeys.secretKey headerSecret chainKey
  let sessionId := sessionIdFor userId1 userId2 deviceId1 deviceId2
  let sessionState : SessionState :=
    { sessionId := sessionId
      userId1 := userId1
      userId2 := userId2
      deviceId1 := deviceId1
      deviceId2 := deviceId2
      sessionKey := sessionKey
      state := .established
      sharedSecret := sessionKey.sharedSecret
      x3dhMessageCounter := 0
      createdAt := now
      lastUpdated := now }
  (sessionState, setStore store sessionId sessionState)

end sessionManager

/-- Device keys of the initiator in the concrete handshake transcript
used to settle C1. -/
def aliceKeys : DeviceKeys :=
  ⟨[10], ⟨[97], [98]⟩, ⟨[99], [100]⟩, [⟨0, [101], [102], 0⟩], [⟨0, [103]⟩]⟩

/-- Device keys of the responder in the concrete handshake transcript
used to settle C1. -/
def bobKeys : DeviceKeys :=
  ⟨[11], ⟨[65], [66]⟩, ⟨[67], [68]⟩, [⟨0, [69], [70], 0⟩], [⟨0, [71]⟩]⟩

/-- Claim C1: the session produced by the initiator and the session
produced by the responder from the same handshake transcript (each side
holding its own device keys and the published pre-key bundle of the
other) do NOT contain byte-identical sharedSecret values: the derivation
mixes our signing public key and our agreement SECRET key with their
bundle, so the two sides inputs differ.  Both sides do agree on the
canonical session id. -/
theorem C1_shared_secret_differs_between_sides :
    (sessionManager.completeHandshake [1] [10] [2] [11] aliceKeys
        (sessionManager.generateX3DHBundle bobKeys 0) true [] [] 0 []).1.sessionKey.sharedSecret ≠
      (sessionManager.completeHandshake [2] [11] [1] [10] bobKeys
        (sessionManager.generateX3DHBundle aliceKeys 0) false [] [] 0 []).1.sessionKey.sharedSecret ∧
    (sessionManager.completeHandshake [1] [10] [2] [11] aliceKeys
        (sessionManager.generateX3DHBundle bobKeys 0) true [] [] 0 []).1.sessionId =
      (sessionManager.completeHandshake [2] [11] [1] [10] bobKeys
        (sessionManager.generateX3DHBundle aliceKeys 0) false [] [] 0 []).1.sessionId := by
  constructor
  · decide
  · decide

/-- Claim C3: `completeHandshake` performs no signature verification at
all — `cryptoUtils.verifySignature` returns `true` unconditionally and
is never consulted — and for EVERY input, including any bundle whose
`signedPreKeySignature` is arbitrary garbage, an `established` session
is stored in the session store; no "handshake authentication failed"
path exists. -/
theorem C3_no_signature_verification :
    (∀ (m s p : List Nat), cryptoUtils.verifySignature m s p = true) ∧
    ∀ (u1 d1 u2 d2 : List Nat) (keys : DeviceKeys) (bundle : X3DHBundle)
      (init : Bool) (hs ck : List Nat) (now : Int) (store : SessionStore),
      (sessionManager.completeHandshake u1 d1 u2 d2 keys bundle init hs ck now store).1.state =
          SState.established ∧
        lookupStore (sessionManager.completeHandshake u1 d1 u2 d2 keys bundle init
            hs ck now store).2 (sessionIdFor u1 u2 d1 d2) =
          some (sessionManager.completeHandshake u1 d1 u2 d2 keys bundle init hs ck now store).1 :=
  ⟨fun _ _ _ => rfl,
   fun u1 d1 u2 d2 keys bundle init hs ck now store =>
     ⟨rfl, lookupStore_setStore_self store (sessionIdFor u1 u2 d1 d2) _⟩⟩

/-- Claim C4: one-time pre-keys are never consumed.  Every bundle
generated from a device republishes ALL of its one-time pre-keys, and a
second `completeHandshake` naming the same bundle (hence the same
one-time pre-key) succeeds again, deriving a session with the very same
shared secret instead of failing with "pre-key exhausted". -/
theorem C4_one_time_prekey_reuse :
    (∀ (dk : DeviceKeys) (now : Int),
       (sessionManager.generateX3DHBundle dk now).oneTimePreKeys =
         dk.oneTimeKeys.map (fun k => k.publicKey)) ∧
    ∀ (u1 d1 u2 d2 : List Nat) (keys : DeviceKeys) (bundle : X3DHBundle)
      (init : Bool) (hs ck : List Nat) (now : Int) (store : SessionStore),
      ((sessionManager.completeHandshake u1 d1 u2 d2 keys bundle init hs ck now
          (sessionManager.completeHandshake u1 d1 u2 d2 keys bundle init hs ck now store).2).1.state =
         SState.established ∧
       (sessionManager.completeHandshake u1 d1 u2 d2 keys bundle init hs ck now
          (sessionManager.completeHandshake u1 d1 u2 d2 keys bundle init hs ck now store).2).1.sessionKey.sharedSecret =
         (sessionManager.completeHandshake u1 d1 u2 d2 keys bundle init hs ck now store).1.sessionKey.sharedSecret) :=
  ⟨fun _ _ => rfl, fun _ _ _ _ _ _ _ _ _ _ _ => ⟨rfl, rfl⟩⟩

/-! ## Message pipeline (messagePipeline, orchestrator module) -/

/-- Outgoing plaintext message (messagePipeline module).  `conversationId`
and `content` are the fields inspected by validation; `content` is a list
of UTF-16 code units so that `.length` matches the JavaScript string
length. -/
structure PlaintextMessage where
  conversationId : List Nat
  senderId : List Nat
  senderDeviceId : List Nat
  recipientId : List Nat
  recipientDeviceId : List Nat
  content : List Nat
deriving DecidableEq, Repr

/-- The payload shape `JSON.parse` must produce inside
`messagePipeline.decryptMessage`: `content`, `messageId` and `timestamp`
are the fields read from it. -/
structure ParsedMessage where
  content : List Nat
  messageId : List Nat
  timestamp : Int
deriving DecidableEq, Repr

/-- The `{content, metadata}` record returned on successful decryption. -/
structure IncomingResult where
  content : List Nat
  messageId : List Nat
  originalTimestamp : Int
deriving DecidableEq, Repr

namespace messagePipeline

/-- `messagePipeline.validateMessage`: rejects a falsy (missing or empty)
`conversationId` or `content`, and content longer than 65536 units. -/
def validateMessage (message : PlaintextMessage) : Bool :=
  if message.conversationId.isEmpty || message.content.isEmpty then false
  else if message.content.length > 65536 then false
  else true

/-- `messagePipeline.decryptMessage`: drops the envelope (returns null,
session untouched) when `encrypted.messageCounter` is not strictly above
the session counter; otherwise decrypts, parses the JSON payload
(`JSON.parse` abstracted as the `parse` argument, its failure being the
caught exception path), and on success sets the session counter to the
envelope counter and refreshes `lastUpdated`. -/
def decryptMessage (parse : List Nat → Option ParsedMessage)
    (encrypted : EncryptedMessage) (session : SessionState) (now : Int) :
    Option IncomingResult × SessionState :=
  if encrypted.messageCounter ≤ session.sessionKey.messageCounter then
    (none, session)
  else
    match parse (cryptoUtils.decryptMessage encrypted session.sessionKey) with
    | none => (none, session)
    | some msg =>
        (some ⟨msg.content, msg.messageId, msg.timestamp⟩,
         { session with
             sessionKey :=
               { session.sessionKey with messageCounter := encrypted.messageCounter }
             lastUpdated := now })

/-- Folds `decryptMessage` over a list of incoming envelopes, returning
the final session and the counters of the successfully accepted
envelopes, in order. -/
def runIncoming (parse : List Nat → Option ParsedMessage) (now : Int) :
    SessionState → List EncryptedMessage → SessionState × List Int
  | s, [] => (s, [])
  | s, e :: es =>
      let step := decryptMessage parse e s now
      let rest := runIncoming parse now step.2 es
      match step.1 with
      | some _ => (rest.1, e.messageCounter :: rest.2)
      | none => rest

end messagePipeline

theorem decryptMessage_spec (parse : List Nat → Option ParsedMessage)
    (e : EncryptedMessage) (s : SessionState) (now : Int) :
    (e.messageCounter ≤ s.sessionKey.messageCounter →
       messagePipeline.decryptMessage parse e s now = (none, s)) ∧
    ((messagePipeline.decryptMessage parse e s now).1 = none →
       (messagePipeline.decryptMessage parse e s now).2 = s) ∧
    (∀ r, (messagePipeline.decryptMessage parse e s now).1 = some r →
       (messagePipeline.decryptMessage parse e s now).2.sessionKey.messageCounter =
           e.messageCounter ∧
         s.sessionKey.messageCounter < e.messageCounter ∧
         (messagePipeline.decryptMessage parse e s now).2.lastUpdated = now) ∧
    s.sessionKey.messageCounter ≤
      (messagePipeline.decryptMessage parse e s now).2.sessionKey.messageCounter := by
  by_cases h : e.messageCounter ≤ s.sessionKey.messageCounter
  · simp [messagePipeline.decryptMessage, h]
  · rcases hp : parse (cryptoUtils.decryptMessage e s.sessionKey) with _ | msg
    · simp [messagePipeline.decryptMessage, h, hp]
    · simp [messagePipeline.decryptMessage, h, hp]
      omega

theorem runIncoming_chain (parse : List Nat → Option ParsedMessage) (now : Int) :
    ∀ (es : List EncryptedMessage) (s : SessionState),
      List.Chain (fun a b => a < b) s.sessionKey.messageCounter
        (messagePipeline.runIncoming parse now s es).2
  | [], s => by
      simp [messagePipeline.runIncoming, List.Chain.nil]
  | e :: es, s => by
      have spec := decryptMessage_spec parse e s now
      rcases h1 : (messagePipeline.decryptMessage parse e s now).1 with _ | r
      · have h2 : (messagePipeline.decryptMessage parse e s now).2 = s := spec.2.1 h1
        have ih := runIncoming_chain parse now es s
        simp only [messagePipeline.runIncoming]
        rw [h1, h2]
        exact ih
      · obtain ⟨hc, hlt, -⟩ := spec.2.2.1 r h1
        have ih := runIncoming_chain parse now es
          (messagePipeline.decryptMessage parse e s now).2
        simp only [messagePipeline.runIncoming]
        rw [h1]
        exact List.Chain.cons hlt (hc ▸ ih)

/-- Claim C2: an envelope whose counter is not strictly above the session
counter is dropped (null) with the session, in particular its counter and
`lastUpdated`, unchanged; a successful decryption sets the session counter
to the envelope counter, which strictly exceeded the previous one; the
counter never decreases; and over any incoming envelope sequence, the
counters of the successfully accepted envelopes are strictly increasing
(so a replay of an accepted envelope is always rejected). -/
theorem C2_replay_protection (parse : List Nat → Option ParsedMessage)
    (e : EncryptedMessage) (s : SessionState) (now : Int) :
    (e.messageCounter ≤ s.sessionKey.messageCounter →
       messagePipeline.decryptMessage parse e s now = (none, s)) ∧
    (∀ r, (messagePipeline.decryptMessage parse e s now).1 = some r →
       (messagePipeline.decryptMessage parse e s now).2.sessionKey.messageCounter =
           e.messageCounter ∧
         s.sessionKey.messageCounter < e.messageCounter) ∧
    s.sessionKey.messageCounter ≤
      (messagePipeline.decryptMessage parse e s now).2.sessionKey.messageCounter ∧
    ∀ (es : List EncryptedMessage),
      List.Chain (fun a b => a < b) s.sessionKey.messageCounter
        (messagePipeline.runIncoming parse now s es).2 := by
  have spec := decryptMessage_spec parse e s now
  exact ⟨spec.1, fun r hr => ⟨(spec.2.2.1 r hr).1, (spec.2.2.1 r hr).2.1⟩, spec.2.2.2,
    fun es => runIncoming_chain parse now es s⟩

/-- Witness for C2: a concrete replayed envelope (counter 0 against a
session counter 0) is dropped with the session unchanged. -/
theorem C2_replay_protection_witness :
    messagePipeline.decryptMessage (fun _ => none)
        ⟨[65], [1], [1], [2], 0, 0, [0]⟩
        ⟨[1], [1], [2], [1], [2], ⟨[0], [0], [0], 0⟩, SState.established, [0], 0, 0, 0⟩ 5 =
      (none,
        ⟨[1], [1], [2], [1], [2], ⟨[0], [0], [0], 0⟩, SState.established, [0], 0, 0, 0⟩) :=
  (C2_replay_protection (fun _ => none)
      ⟨[65], [1], [1], [2], 0, 0, [0]⟩
      ⟨[1], [1], [2], [1], [2], ⟨[0], [0], [0], 0⟩, SState.established, [0], 0, 0, 0⟩ 5).1
    (by decide)

theorem replicate_ne_nil_of_pos (n : Nat) (hn : n ≠ 0) :
    List.replicate n (97 : Nat) ≠ [] := by
  intro h
  have := congrArg List.length h
  simp at this
  exact hn this

/-- Claim C7: `validateMessage` accepts exactly the messages with
non-empty `conversationId` and `content` whose content length is at most
65536 units; in particular content of exactly 65536 units is accepted and
of 65537 units is rejected. -/
theorem C7_validateMessage_bounds :
    (∀ m : PlaintextMessage,
       messagePipeline.validateMessage m = true ↔
         m.conversationId ≠ [] ∧ m.content ≠ [] ∧ m.content.length ≤ 65536) ∧
    messagePipeline.validateMessage ⟨[99], [], [], [], [], List.replicate 65536 97⟩ = true ∧
    messagePipeline.validateMessage ⟨[99], [], [], [], [], List.replicate 65537 97⟩ = false := by
  have hiff : ∀ m : PlaintextMessage,
      messagePipeline.validateMessage m = true ↔
        m.conversationId ≠ [] ∧ m.content ≠ [] ∧ m.content.length ≤ 65536 := by
    intro m
    unfold messagePipeline.validateMessage
    split_ifs with h1 h2
    · simp only [Bool.or_eq_true, List.isEmpty_iff] at h1
      simp only [Bool.false_eq_true, false_iff, not_and]
      intro hc hcont
      rcases h1 with h | h
      · exact absurd h hc
      · exact absurd h hcont
    · simp only [Bool.or_eq_true, List.isEmpty_iff, not_or] at h1
      simp only [Bool.false_eq_true, false_iff, not_and]
      intro _ _
      omega
    · simp only [Bool.or_eq_true, List.isEmpty_iff, not_or] at h1
      simp only [true_iff]
      exact ⟨h1.1, h1.2, by omega⟩
  refine ⟨hiff, ?_, ?_⟩
  · exact (hiff _).mpr ⟨by simp, replicate_ne_nil_of_pos 65536 (by norm_num),
      by rw [List.length_replicate]⟩
  · by_contra hne
    have htrue : messagePipeline.validateMessage
        ⟨[99], [], [], [], [], List.replicate 65537 97⟩ = true := by
      cases h : messagePipeline.validateMessage
          ⟨[99], [], [], [], [], List.replicate 65537 97⟩
      · exact absurd h hne
      · rfl
    have h2 := ((hiff _).mp htrue).2.2
    rw [List.length_replicate] at h2
    omega

/-! ## Offline delivery queue (offlineQueueManager module) -/

/-- Queue entry status (offlineQueueManager module). -/
inductive QStatus
  | pending
  | sending
  | sent
  | failed
  | delivered
deriving DecidableEq, Repr

/-- Queued message (offlineQueueManager module).  Times are rationals
because the source mixes `Date.now()` with `Math.random()` jitter. -/
structure QueuedMessage where
  id : String
  userId : String
  conversationId : String
  content : String
  encrypted : String
  sessionId : String
  timestamp : ℚ
  attempts : Nat
  maxRetries : Nat
  nextRetryTime : ℚ
  status : QStatus
  error : Option String
  createdAt : ℚ
  updatedAt : ℚ
deriving DecidableEq, Repr

/-- `getRetryDelay` (offlineQueueManager module): exponential backoff
`min(1000 * 2^attemptNumber, 60000)` plus `Math.random() * 1000` jitter,
with the jitter draw taken as a parameter. -/
def getRetryDelay (attemptNumber : Nat) (jitter : ℚ) : ℚ :=
  min (1000 * 2 ^ attemptNumber) 60000 + jitter

/-- The body of `offlineQueueManager.processMessage` acting on the entry
it found: no-op success for `sent`/`delivered`; defer while
`nextRetryTime` is in the future; terminal failure once
`attempts >= maxRetries`; otherwise increment `attempts` and attempt the
transport send, whose outcome (`sendOk`) and jitter draw are
parameters. -/
def processMessageEntry (m : QueuedMessage) (now : ℚ) (sendOk : Bool) (jitter : ℚ) :
    QueuedMessage × Bool :=
  if m.status = QStatus.sent ∨ m.status = QStatus.delivered then (m, true)
  else if now < m.nextRetryTime then (m, false)
  else if m.maxRetries ≤ m.attempts then
    ({ m with
        status := QStatus.failed
        error := some ("Max retries exceeded")
        updatedAt := now }, false)
  else if sendOk then
    ({ m with attempts := m.attempts + 1, status := QStatus.sent, updatedAt := now }, true)
  else
    ({ m with
        attempts := m.attempts + 1
        nextRetryTime := now + getRetryDelay (m.attempts + 1) jitter
        error := some ("Network timeout")
        updatedAt := now }, false)

/-- The queue state `offlineQueueManager.state.messages`, an insertion
-ordered map from user id to that user's queued messages, modelled as an
association list. -/
def QueueState := List (String × List QueuedMessage)

/-- `Map.prototype.get` on the per-user message map. -/
def lookupUser : QueueState → String → Option (List QueuedMessage)
  | [], _ => none
  | (u, ms) :: rest, uid => if u = uid then some ms else lookupUser rest uid

/-- Replaces one user's message list in place. -/
def updateUser : QueueState → String → (List QueuedMessage → List QueuedMessage) → QueueState
  | [], _, _ => []
  | (u, ms) :: rest, uid, f =>
      if u = uid then (u, f ms) :: rest else (u, ms) :: updateUser rest uid f

/-- Processes the first entry with the given id in a message list,
returning the updated list and the result of `processMessageEntry`
(`none` when no entry matches, the `findIndex === -1` path). -/
def processInList : List QueuedMessage → String → ℚ → Bool → ℚ →
    List QueuedMessage × Option Bool
  | [], _, _, _, _ => ([], none)
  | m :: rest, mid, now, sendOk, jitter =>
      if m.id = mid then
        ((processMessageEntry m now sendOk jitter).1 :: rest,
         some (processMessageEntry m now sendOk jitter).2)
      else
        ((m :: (processInList rest mid now sendOk jitter).1),
         (processInList rest mid now sendOk jitter).2)

/-- `offlineQueueManager.processMessage`: looks up the user's messages,
finds the entry by id (returning `false` with no change when the user or
the entry is missing) and runs the retry/send logic on it. -/
def processMessage (st : QueueState) (uid mid : String) (now : ℚ) (sendOk : Bool)
    (jitter : ℚ) : QueueState × Bool :=
  match lookupUser st uid with
  | none => (st, false)
  | some msgs =>
      match (processInList msgs mid now sendOk jitter).2 with
      | none => (st, false)
      | some b => (updateUser st uid (fun _ => (processInList msgs mid now sendOk jitter).1), b)

/-- `Array.prototype.find` by message id. -/
def findMsg : List QueuedMessage → String → Option QueuedMessage
  | [], _ => none
  | m :: rest, mid => if m.id = mid then some m else findMsg rest mid

/-- The in-place reset performed by `retryMessage` on the entry it finds:
`status = pending`, `nextRetryTime = now`, `attempts = 0`, `error`
cleared. -/
def resetFirst : List QueuedMessage → String → ℚ → List QueuedMessage
  | [], _, _ => []
  | m :: rest, mid, now =>
      if m.id = mid then
        { m with
            status := QStatus.pending
            nextRetryTime := now
            attempts := 0
            error := none } :: rest
      else m :: resetFirst rest mid now

/-- The first user (in map iteration order) whose list contains the id,
as found by the loop in `retryMessage`. -/
def findOwner : QueueState → String → Option String
  | [], _ => none
  | (u, ms) :: rest, mid =>
      if (findMsg ms mid).isSome then some u else findOwner rest mid

/-- `offlineQueueManager.retryMessage`: finds the entry across all users,
resets it to `pending` with `attempts = 0`, `nextRetryTime = now` and no
error, then reprocesses it via `processMessage`; returns `false` with no
change when the id is unknown. -/
def retryMessage (st : QueueState) (mid : String) (now : ℚ) (sendOk : Bool)
    (jitter : ℚ) : QueueState × Bool :=
  match findOwner st mid with
  | none => (st, false)
  | some uid =>
      processMessage (updateUser st uid (fun ms => resetFirst ms mid now)) uid mid now
        sendOk jitter

/-- A pending entry whose retry budget is exhausted but whose next retry
time is still in the future, used to settle C8. -/
def deferredEntry : QueuedMessage :=
  { id := "m1", userId := "u1", conversationId := "c1", content := "hi",
    encrypted := "aGk=", sessionId := "s1", timestamp := 0, attempts := 5,
    maxRetries := 5, nextRetryTime := 100, status := QStatus.pending,
    error := none, createdAt := 0, updatedAt := 0 }

/-- Counterexample to C8 as stated: an entry that is neither sent nor
delivered and has `attempts >= maxRetries` is NOT marked failed when its
`nextRetryTime` is still in the future — the defer branch returns first,
leaving the entry pending and unchanged. -/
theorem C8_claim_counterexample :
    deferredEntry.status ≠ QStatus.sent ∧
    deferredEntry.status ≠ QStatus.delivered ∧
    deferredEntry.maxRetries ≤ deferredEntry.attempts ∧
    processMessageEntry deferredEntry 50 true 0 = (deferredEntry, false) ∧
    (processMessageEntry deferredEntry 50 true 0).1.status ≠ QStatus.failed := by
  refine ⟨by decide, by decide, by decide, ?_, ?_⟩
  · simp [processMessageEntry, deferredEntry]
    norm_num
  · simp [processMessageEntry, deferredEntry]
    norm_num
    decide

/-- Claim C8 (amended): for an entry that is due for retry
(`nextRetryTime <= now`), `processMessage` keeps `attempts <= maxRetries`:
sent/delivered entries are untouched; a not-yet-due entry is deferred
unchanged; a due entry with `attempts >= maxRetries` becomes failed with
"Max retries exceeded" without a send attempt and without touching
`attempts`; a due entry within budget has `attempts` incremented by
exactly one for the transport attempt; and the invariant
`attempts <= maxRetries` is preserved by every branch. -/
theorem C8_processMessage_retry_budget (m : QueuedMessage) (now : ℚ)
    (sendOk : Bool) (j : ℚ) :
    ((m.status = QStatus.sent ∨ m.status = QStatus.delivered) →
       processMessageEntry m now sendOk j = (m, true)) ∧
    (¬(m.status = QStatus.sent ∨ m.status = QStatus.delivered) →
       now < m.nextRetryTime →
       processMessageEntry m now sendOk j = (m, false)) ∧
    (¬(m.status = QStatus.sent ∨ m.status = QStatus.delivered) →
       ¬ now < m.nextRetryTime → m.maxRetries ≤ m.attempts →
       processMessageEntry m now sendOk j =
         ({ m with
             status := QStatus.failed
             error := some ("Max retries exceeded")
             updatedAt := now }, false)) ∧
    (¬(m.status = QStatus.sent ∨ m.status = QStatus.delivered) →
       ¬ now < m.nextRetryTime → m.attempts < m.maxRetries →
       (processMessageEntry m now sendOk j).1.attempts = m.attempts + 1) ∧
    (m.attempts ≤ m.maxRetries →
       (processMessageEntry m now sendOk j).1.attempts ≤
         (processMessageEntry m now sendOk j).1.maxRetries) := by
  unfold processMessageEntry
  split_ifs with h1 h2 h3 h4 <;>
    refine ⟨fun ha => ?_, fun ha hb => ?_, fun ha hb hc => ?_, fun ha hb hc => ?_,
      fun ha => ?_⟩ <;>
    first
      | rfl
      | omega
      | (simp_all <;> omega)

/-- A sent entry used only to instantiate the C8 theorem. -/
def sentEntry : QueuedMessage :=
  { id := "m2", userId := "u1", conversationId := "c1", content := "hi",
    encrypted := "aGk=", sessionId := "s1", timestamp := 0, attempts := 1,
    maxRetries := 5, nextRetryTime := 0, status := QStatus.sent,
    error := none, createdAt := 0, updatedAt := 0 }

/-- Witness for C8 (amended): a sent entry is returned unchanged. -/
theorem C8_processMessage_retry_budget_witness :
    processMessageEntry sentEntry 0 true 0 = (sentEntry, true) :=
  (C8_processMessage_retry_budget sentEntry 0 true 0).1 (Or.inl rfl)

/-- Claim C9: the retry delay is `min(1000 * 2^n, 60000)` plus the jitter
draw; with jitter in `[0, 1000)` every delay is below 61000 ms; the
deterministic component is non-decreasing in the attempt number; and the
transport-failure branch of `processMessage` schedules exactly
`now + getRetryDelay(attempts + 1)` (the delay for the attempt just
made). -/
theorem C9_backoff_cap_monotone (n : Nat) (j : ℚ) (h0 : 0 ≤ j) (h1 : j < 1000) :
    getRetryDelay n j = min (1000 * 2 ^ n) 60000 + j ∧
    getRetryDelay n j < 61000 ∧
    (∀ n2 : Nat, n ≤ n2 → getRetryDelay n 0 ≤ getRetryDelay n2 0) ∧
    ∀ (m : QueuedMessage) (now : ℚ),
      ¬(m.status = QStatus.sent ∨ m.status = QStatus.delivered) →
      ¬ now < m.nextRetryTime → m.attempts < m.maxRetries →
      (processMessageEntry m now false j).1.nextRetryTime =
        now + getRetryDelay (m.attempts + 1) j := by
  refine ⟨rfl, ?_, ?_, ?_⟩
  · have hle : min (1000 * 2 ^ n : ℚ) 60000 ≤ 60000 := min_le_right _ _
    have : getRetryDelay n j < 60000 + 1000 := add_lt_add_of_le_of_lt hle h1
    linarith
  · intro n2 hn
    unfold getRetryDelay
    have hpow : (2 : ℚ) ^ n ≤ 2 ^ n2 :=
      pow_le_pow_right₀ (by norm_num) hn
    have : (1000 : ℚ) * 2 ^ n ≤ 1000 * 2 ^ n2 := by linarith
    exact add_le_add_right (min_le_min this (le_refl 60000)) 0
  · intro m now ha hb hc
    have hge : ¬ m.maxRetries ≤ m.attempts := by omega
    simp [processMessageEntry, ha, hb, hge]

/-- Witness for C9 at attempt 0 with zero jitter. -/
theorem C9_backoff_cap_monotone_witness : getRetryDelay 0 0 < 61000 :=
  (C9_backoff_cap_monotone 0 0 (by norm_num) (by norm_num)).2.1

theorem findMsg_resetFirst (mid : String) (now : ℚ) :
    ∀ ms : List QueuedMessage,
      findMsg (resetFirst ms mid now) mid =
        (findMsg ms mid).map (fun m =>
          { m with
              status := QStatus.pending
              nextRetryTime := now
              attempts := 0
              error := none })
  | [] => rfl
  | m :: rest => by
      by_cases h : m.id = mid
      · simp [resetFirst, findMsg, h]
      · simp [resetFirst, findMsg, h, findMsg_resetFirst mid now rest]

/-- Claim C10: when no entry with the id exists, `retryMessage` returns
`false` and changes nothing; when one exists (under its owning user),
`retryMessage` resets exactly that entry to `pending` with `attempts = 0`,
`nextRetryTime = now` and its error cleared — regardless of prior status —
and then reprocesses it through `processMessage` on the reset state. -/
theorem C10_retryMessage_resets (st : QueueState) (mid : String) (now : ℚ)
    (sendOk : Bool) (j : ℚ) :
    (findOwner st mid = none → retryMessage st mid now sendOk j = (st, false)) ∧
    (∀ uid, findOwner st mid = some uid →
       retryMessage st mid now sendOk j =
         processMessage (updateUser st uid (fun ms => resetFirst ms mid now)) uid mid
           now sendOk j) ∧
    ∀ ms : List QueuedMessage,
      findMsg (resetFirst ms mid now) mid =
        (findMsg ms mid).map (fun m =>
          { m with
              status := QStatus.pending
              nextRetryTime := now
              attempts := 0
              error := none }) := by
  refine ⟨?_, ?_, findMsg_resetFirst mid now⟩
  · intro h
    unfold retryMessage
    rw [h]
  · intro uid h
    unfold retryMessage
    rw [h]

/-- Witness for C10 on the empty queue: an unknown id returns false with
no change. -/
theorem C10_retryMessage_resets_witness :
    retryMessage ([] : QueueState) "x" 0 true 0 = (([] : QueueState), false) :=
  (C10_retryMessage_resets ([] : QueueState) "x" 0 true 0).1 rfl

/-- Witness for C7: a concrete two-unit message is accepted. -/
theorem C7_validateMessage_bounds_witness :
    messagePipeline.validateMessage ⟨[99], [], [], [], [], [104, 105]⟩ = true :=
  (C7_validateMessage_bounds.1 _).mpr ⟨by decide, by decide, by decide⟩
